import Mathlib

/-!
Verification of the `classes-intro` repository: a shallow embedding of
`testhelper.py` (ordered test registry, readline completer, prompt/dispatch
loop) and `pulsar_solution.py` (the `Pulsar` class with derived frequency
properties and catalog lookup), together with theorems settling the spec's
claims about them.

Python strings are modelled as Lean `String`, Python `None`-or-value as
`Option`, the astropy quantities (periods, frequencies, coordinates) as
exact rationals `ℚ`, and the observable behaviour of the interactive
dispatcher as a trace of output events.
-/

set_option maxHeartbeats 1000000

namespace ClassesIntro

/-! ## testhelper.py: the test registry -/

/-- A registered test function: its Python `__name__` and `__doc__`.
The body is irrelevant to the dispatcher (tests take no arguments); an
invocation is recorded in the output trace instead. -/
structure TestFunc where
  fname : String
  doc : Option String
deriving DecidableEq

/-- Model of `collections.OrderedDict` from short test names to functions,
an insertion-ordered association list with unique keys. -/
abbrev Registry := List (String × TestFunc)

/-- OrderedDict assignment `d[k] = v`: an existing key keeps its position
and gets the new value; a new key is appended at the end. -/
def odInsert (reg : Registry) (k : String) (v : TestFunc) : Registry :=
  if reg.any (fun p => p.1 = k) then
    reg.map (fun p => if p.1 = k then (k, v) else p)
  else
    reg ++ [(k, v)]

/-- OrderedDict lookup `d.get(k, None)`: the value at the first (here,
only) occurrence of the key, or `none`. -/
def odLookup : Registry → String → Option TestFunc
  | [], _ => none
  | (k, v) :: rest, key => if k = key then some v else odLookup rest key

/-- Python `s.partition(sep)[2]` on a list of characters: everything after
the first occurrence of `sep`, or the empty string when `sep` is absent. -/
def pyPartition2 (sep : Char) : List Char → List Char
  | [] => []
  | c :: rest => if c = sep then rest else pyPartition2 sep rest

/-- The registered short name of a test function: the portion of its
`__name__` after the first underscore, `f.__name__.partition('_')[2]`. -/
def testShortName (fname : String) : String :=
  String.mk (pyPartition2 '_' fname.data)

/-- Decorator `register_test(f)`: inserts `f` under its short name and returns `f`
itself (decorator identity). The registry (module-level `TESTS`) is passed
explicitly. -/
def register_test (reg : Registry) (f : TestFunc) : Registry × TestFunc :=
  (odInsert reg (testShortName f.fname) f, f)

/-! ## testhelper.py: the listing routine -/

/-- Python truthiness of `test.__doc__`: `None` and the empty string are
falsy. -/
def pyTruthyDoc : Option String → Bool
  | none => false
  | some s => s ≠ ""

/-- Python `__doc__.splitlines()[0]`: the first line of a (nonempty) docstring. -/
def firstLine (s : String) : String :=
  String.mk (s.data.takeWhile (fun c => c ≠ '\n'))

/-- The line printed for a documented test: `"    {} - {}".format(tname, summary)`. -/
def docLine (tname : String) (doc : Option String) : String :=
  "    " ++ tname ++ " - " ++ firstLine (doc.getD (""))

/-- The generator `print_documented_tests` inside `pprint_tests`: walking
the registry in order, it prints one line per documented test and yields
the names of the undocumented ones.  Returns (printed lines, yielded
names). -/
def print_documented_tests : Registry → List String × List String
  | [] => ([], [])
  | (tname, test) :: rest =>
    let (out, undoc) := print_documented_tests rest
    if pyTruthyDoc test.doc then
      (docLine tname test.doc :: out, undoc)
    else
      (out, tname :: undoc)

/-- Function `pprint_list(lst, sep=", ", cnv=unicode, prefix="")`: joins the items
with the separator, word-wraps the joined string (via `textwrap.wrap`,
passed in as `wrap` since it is Python standard library), and prints each
wrapped line preceded by the prefix.  Returns the printed lines. -/
def pprint_list (wrap : String → List String) (lst : List String)
    (sep : String) (pre : String) : List String :=
  (wrap (String.intercalate sep lst)).map (fun line => pre ++ line)

/-- Function `pprint_tests(tests)`: the generator is consumed in full by the
`sep.join` inside `pprint_list` (printing every documented line, in
order), after which the wrapped undocumented names are printed with the
`"    "` prefix.  Returns the full list of printed lines. -/
def pprint_tests (wrap : String → List String) (tests : Registry) : List String :=
  let (docLines, undoc) := print_documented_tests tests
  docLines ++ pprint_list wrap undoc (", ") ("    ")

/-! ## testhelper.py: the completer -/

/-- State of a `TestsCompleter`: the registered names (in order) and the current match
list. -/
structure TestsCompleter where
  tests : List String
  matchList : List String

/-- Constructor `TestsCompleter.__init__(tests)`. -/
def TestsCompleter.init (tests : Registry) : TestsCompleter :=
  { tests := tests.map Prod.fst, matchList := tests.map Prod.fst }

/-- Method `TestsCompleter.complete(text, state)`: at state 0 the match list is
recomputed as the registered names starting with `text` (in registration
order); the result is `matches[state]`, or `None` past the end
(`IndexError`). -/
def TestsCompleter.complete (c : TestsCompleter) (text : String) (state : Nat) :
    TestsCompleter × Option String :=
  let c' := if state = 0 then
    { c with matchList := c.tests.filter (fun tname => text.isPrefixOf tname) }
  else c
  (c', c'.matchList.get? state)

/-- Calling the completer with the same `text` at states `0, 1, ..., k`
in succession (the readline protocol); result of the last call. -/
def completeSeq (c : TestsCompleter) (text : String) : Nat → TestsCompleter × Option String
  | 0 => c.complete text 0
  | k + 1 => (completeSeq c text k).1.complete text (k + 1)

/-! ## testhelper.py: the dispatcher -/

/-- One interaction with `raw_input`: a line of text, or a
`KeyboardInterrupt`.  An exhausted stream (`EOFError`) is the end of the
input list. -/
inductive InEvent where
  | line (s : String)
  | interrupt
deriving DecidableEq

/-- Observable output of `test_main`: a printed line, or the invocation of
the registered zero-argument callable chosen by name. -/
inductive OutEvent where
  | printed (s : String)
  | invoked (tname : String)
deriving DecidableEq

/-- Python `s.center(width, fill)` (CPython): no-op when the string is not
shorter than the width; otherwise the margin is split with
`left = marg // 2 + (marg & width & 1)`. -/
def pyCenter (s : String) (width : Nat) (fill : Char) : String :=
  let marg := width - s.length
  let left := marg / 2 + (marg &&& width &&& 1)
  String.mk (List.replicate left fill ++ s.data ++ List.replicate (marg - left) fill)

/-- Python 2 `repr` of a test-name string read from `raw_input` (a plain
byte string without quotes or escapes): the string in single quotes. -/
def pyRepr (s : String) : String :=
  "'" ++ s ++ "'"

/-- The banner `" Running test {!r} ".format(tname).center(80, "-")`. -/
def runningBanner (tname : String) : String :=
  pyCenter (" Running test " ++ pyRepr tname ++ " ") 80 '-'

/-- The retry message printed on an unrecognized name. -/
def invalidMsg : String := "Invalid test name. Please try again"

/-- The `while not test` loop of `test_main`: reads lines until one is a
registered name; `EOFError` (exhausted input) and `KeyboardInterrupt` print
a newline and return; an unrecognized line prints the retry message and
loops; a recognized line prints the banner and a blank line, then invokes
the test.  Returns the output trace. -/
def test_main_loop (reg : Registry) : List InEvent → List OutEvent
  | [] => [OutEvent.printed ("")]
  | InEvent.interrupt :: _ => [OutEvent.printed ("")]
  | InEvent.line s :: rest =>
    match odLookup reg s with
    | some _ =>
      [OutEvent.printed (runningBanner s), OutEvent.printed (""), OutEvent.invoked s]
    | none => OutEvent.printed invalidMsg :: test_main_loop reg rest

/-- Function `test_main()`: prints the header and the test listing, then runs the
prompt loop.  (The readline/history setup performs external I/O and has no
bearing on the trace.)  `wrap` abstracts `textwrap.wrap`. -/
def test_main (wrap : String → List String) (reg : Registry)
    (input : List InEvent) : List OutEvent :=
  OutEvent.printed ("Available tests:")
    :: (pprint_tests wrap reg).map OutEvent.printed
    ++ test_main_loop reg input

/-- Decides whether the trace prints the running banner for `tname` at
some position strictly after an invocation of `tname` — the "banner after
execution" half of claim C2. -/
def bannerAfterInvocation (tr : List OutEvent) (tname : String) : Bool :=
  (List.range tr.length).any (fun i =>
    (List.range tr.length).any (fun j =>
      decide (i < j)
        && tr.get? i == some (OutEvent.invoked tname)
        && tr.get? j == some (OutEvent.printed (runningBanner tname))))

/-! ## pulsar_solution.py: the Pulsar class

Astropy quantities (period in seconds, frequency in hertz, angles in
degrees) are modelled as exact rationals; the unit bookkeeping is the
external library's and carries no logic of its own here. -/

/-- The `Pulsar` instance state: `name`, `coords` (an ICRS `SkyCoord`,
modelled as the (ra, dec) pair), `period`, `period_derivative`. -/
structure Pulsar where
  name : String
  coords : ℚ × ℚ
  period : ℚ
  period_derivative : ℚ
deriving DecidableEq

/-- Constructor `Pulsar.__init__(name, coords, period, period_derivative=None)`: a
`None` period derivative is replaced by `0 * u.dimensionless_unscaled`. -/
def Pulsar.init (name : String) (coords : ℚ × ℚ) (period : ℚ)
    (period_derivative : Option ℚ) : Pulsar :=
  { name := name, coords := coords, period := period,
    period_derivative := period_derivative.getD 0 }

/-- Property getter `frequency`: `1 / self.period`. -/
def Pulsar.frequency (p : Pulsar) : ℚ :=
  1 / p.period

/-- Property setter `frequency`: `self.period = 1 / freq`. -/
def Pulsar.setFrequency (p : Pulsar) (freq : ℚ) : Pulsar :=
  { p with period := 1 / freq }

/-- Property getter `frequency_derivative`:
`-self.period_derivative / self.period**2`. -/
def Pulsar.frequency_derivative (p : Pulsar) : ℚ :=
  -p.period_derivative / p.period ^ 2

/-- Property setter `frequency_derivative`:
`self.period_derivative = -fdot / self.frequency**2`. -/
def Pulsar.setFrequencyDerivative (p : Pulsar) (fdot : ℚ) : Pulsar :=
  { p with period_derivative := -fdot / p.frequency ^ 2 }

/-- One row of the ATNF catalog table: the primary identifier `NAME`, the
alternate identifier `PSRJ`, the coordinate columns `RAJ`/`DECJ`, the
period `P0` and the period derivative `P1`. -/
structure CatalogRow where
  NAME : String
  PSRJ : String
  RAJ : ℚ
  DECJ : ℚ
  P0 : ℚ
  P1 : ℚ
deriving DecidableEq

/-- The loaded catalog table, in row order. -/
abbrev Catalog := List CatalogRow

/-- Classmethod `Pulsar.from_catalog_row(row, name=None)`: a `None` name defaults to
the row's `NAME` column; coordinates come from `RAJ`/`DECJ`, period from
`P0`, period derivative from `P1`. -/
def Pulsar.from_catalog_row (row : CatalogRow) (name : Option String) : Pulsar :=
  Pulsar.init (name.getD row.NAME) (row.RAJ, row.DECJ) row.P0 (some row.P1)

/-- The row-matching predicate of `from_catalog`:
`(catalog['NAME'] == name) | (catalog['PSRJ'] == name)`. -/
def catalogMatches (name : String) (r : CatalogRow) : Bool :=
  r.NAME == name || r.PSRJ == name

/-- The search-and-build part of `Pulsar.from_catalog(name)` on a loaded
catalog: `np.where` selects the matching rows; zero matches raise
`ValueError("Pulsar {!r} not found".format(name))`; otherwise the first
matching row builds the Pulsar with the queried name. -/
def Pulsar.from_catalog_search (cat : Catalog) (name : String) : Except String Pulsar :=
  match cat.filter (catalogMatches name) with
  | [] => Except.error ("Pulsar " ++ pyRepr name ++ " not found")
  | row :: _ => Except.ok (Pulsar.from_catalog_row row (some name))

/-- Classmethod `Pulsar.from_catalog(cls, name)` with the class-level cache
`cls.catalog` passed as explicit state.  When the cache is `None` the
catalog is loaded by `cls.read_catalog()` — an external table read whose
result is the parameter `loaded`.  Returns the new cache, whether a load
was performed, and the lookup result. -/
def Pulsar.from_catalog (cache : Option Catalog) (loaded : Catalog)
    (name : String) : Option Catalog × Bool × Except String Pulsar :=
  match cache with
  | some cat => (some cat, false, Pulsar.from_catalog_search cat name)
  | none => (some loaded, true, Pulsar.from_catalog_search loaded name)

/-- A sequence of `from_catalog` lookups threading the class-level cache;
returns the final cache and how many catalog loads were performed. -/
def lookupSeq (cache : Option Catalog) (loaded : Catalog) :
    List String → Option Catalog × Nat
  | [] => (cache, 0)
  | n :: ns =>
    let step := Pulsar.from_catalog cache loaded n
    let rec' := lookupSeq step.1 loaded ns
    (rec'.1, (if step.2.1 then 1 else 0) + rec'.2)

/-! ## Shared concrete instances (used by witnesses and counterexamples) -/

/-- The function `test_class` from the repository (its short name is
`class`). -/
def fClass : TestFunc :=
  { fname := "test_class", doc := some ("Check if there is a Pulsar class") }

/-- A registry holding just `test_class`, as built by the decorator. -/
def reg1 : Registry := (register_test [] fClass).1

/-- A faithful stand-in for `textwrap.wrap` on short inputs: no line for
the empty string, one line otherwise. -/
def wrap1 : String → List String := fun s => if s = "" then [] else [s]

/-- The Crab pulsar with exact rational data (period 1/30 s). -/
def pCrab : Pulsar := Pulsar.init ("Crab") (83, 22) (1 / 30) none

/-- A single-row catalog for the Crab pulsar. -/
def rowCrab : CatalogRow :=
  { NAME := "B0531+21", PSRJ := "J0534+2200", RAJ := 83, DECJ := 22,
    P0 := 1 / 30, P1 := 0 }

/-- The catalog holding just `rowCrab`. -/
def cat1 : Catalog := [rowCrab]

/-! ## Helper lemmas -/

/-- Updating an existing key in place preserves its binding for lookup. -/
theorem odLookup_map_update (reg : Registry) (k : String) (v : TestFunc)
    (h : reg.any (fun p => p.1 = k) = true) :
    odLookup (reg.map (fun p => if p.1 = k then (k, v) else p)) k = some v := by
  induction reg with
  | nil => simp at h
  | cons a rest ih =>
    obtain ⟨a1, a2⟩ := a
    by_cases hk : a1 = k
    · rw [List.map_cons, if_pos hk]
      simp [odLookup]
    · simp only [List.any_cons, Bool.or_eq_true, decide_eq_true_eq] at h
      rw [List.map_cons, if_neg hk]
      simp only [odLookup]
      rw [if_neg hk]
      exact ih (by simpa [hk] using h)

/-- Appending a fresh key makes it found by lookup. -/
theorem odLookup_append (reg : Registry) (k : String) (v : TestFunc)
    (h : reg.any (fun p => p.1 = k) = false) :
    odLookup (reg ++ [(k, v)]) k = some v := by
  induction reg with
  | nil => simp [odLookup]
  | cons a rest ih =>
    obtain ⟨a1, a2⟩ := a
    simp only [List.any_cons, Bool.or_eq_false_iff, decide_eq_false_iff_not] at h
    simp only [List.cons_append, odLookup]
    rw [if_neg h.1]
    exact ih (by simp [h.2])

/-- OrderedDict assignment followed by lookup of the same key. -/
theorem odLookup_odInsert (reg : Registry) (k : String) (v : TestFunc) :
    odLookup (odInsert reg k v) k = some v := by
  unfold odInsert
  by_cases h : reg.any (fun p => p.1 = k) = true
  · rw [if_pos h]
    exact odLookup_map_update reg k v h
  · rw [if_neg h]
    exact odLookup_append reg k v (by rwa [Bool.not_eq_true] at h)

/-- A character absent from the input leaves nothing after its first
occurrence. -/
theorem pyPartition2_of_not_mem (sep : Char) (l : List Char) (h : sep ∉ l) :
    pyPartition2 sep l = [] := by
  induction l with
  | nil => rfl
  | cons c rest ih =>
    simp only [List.mem_cons, not_or] at h
    simp only [pyPartition2]
    rw [if_neg (fun hc : c = sep => h.1 hc.symm)]
    exact ih h.2

/-- State of the completer after the calls at states `0, ..., k` with one
prefix: the match list is the filtered name list, whatever it held before. -/
theorem completeSeq_state (ts ms : List String) (text : String) (k : Nat) :
    (completeSeq ⟨ts, ms⟩ text k).1 =
      ⟨ts, ts.filter (fun tname => text.isPrefixOf tname)⟩ := by
  induction k with
  | zero => simp [completeSeq, TestsCompleter.complete]
  | succ n ih => simp [completeSeq, TestsCompleter.complete, ih]

/-- The generator of `pprint_tests` computed in closed form: documented
lines and undocumented names, each filtered in registration order. -/
theorem print_documented_tests_eq (tests : Registry) :
    print_documented_tests tests =
      ((tests.filter (fun p => pyTruthyDoc p.2.doc)).map (fun p => docLine p.1 p.2.doc),
       (tests.filter (fun p => !pyTruthyDoc p.2.doc)).map Prod.fst) := by
  induction tests with
  | nil => rfl
  | cons a rest ih =>
    by_cases h : pyTruthyDoc a.2.doc
    · simp [print_documented_tests, ih, List.filter_cons, h]
    · simp [print_documented_tests, ih, List.filter_cons, h]

/-! ## Claims about the registry, the completer and the listing -/

/-- Claim C9: `register_test` registers every decorated function under the
portion of its `__name__` after the first underscore (`test_class` is
registered as `class`; a name with no underscore is registered under the
empty string) and returns the function object itself unchanged. -/
theorem C9_register_test (reg : Registry) (f : TestFunc) :
    (register_test reg f).2 = f ∧
    odLookup (register_test reg f).1 (testShortName f.fname) = some f ∧
    testShortName ("test_class") = "class" ∧
    (∀ s : String, ('_') ∉ s.data → testShortName s = "") := by
  refine ⟨rfl, odLookup_odInsert reg (testShortName f.fname) f, rfl, ?_⟩
  intro s h
  simp [testShortName, pyPartition2_of_not_mem '_' s.data h]

/-- Witness for C9 at concrete inputs: an underscore-free name registers
under the empty string. -/
theorem C9_register_test_witness :
    ('_') ∉ ("abc").data ∧ testShortName ("abc") = "" :=
  ⟨by decide, (C9_register_test [] ⟨"t", none⟩).2.2.2 ("abc") (by decide)⟩

/-- Claim C1: calling the completer with one prefix at states `0, ..., k`
returns the `(k+1)`-th registered name (registration order) starting with
that prefix, `none` once the matches are exhausted — whatever match list a
previous prefix left behind (`ms`), so a new prefix resets the sequence. -/
theorem C1_completer_sequence (tests : Registry) (ms : List String)
    (text : String) (k : Nat) :
    (completeSeq ⟨tests.map Prod.fst, ms⟩ text k).2 =
      ((tests.map Prod.fst).filter (fun tname => text.isPrefixOf tname)).get? k := by
  cases k with
  | zero => simp [completeSeq, TestsCompleter.complete]
  | succ n =>
    simp only [completeSeq]
    rw [completeSeq_state]
    simp [TestsCompleter.complete]

/-- Claim C5: the listing prints each documented entry as its name with
the first line of its docstring, in registration order, then prints every
undocumented name joined, word-wrapped and prefixed, grouped after all the
documented entries — for any wrapping function standing in for
`textwrap.wrap`. -/
theorem C5_pprint_tests (wrap : String → List String) (tests : Registry) :
    pprint_tests wrap tests =
      (tests.filter (fun p => pyTruthyDoc p.2.doc)).map
          (fun p => docLine p.1 p.2.doc)
        ++ (wrap (String.intercalate (", ")
              ((tests.filter (fun p => !pyTruthyDoc p.2.doc)).map Prod.fst))).map
            (fun line => "    " ++ line) := by
  simp [pprint_tests, print_documented_tests_eq, pprint_list]

/-! ## Claims about the dispatcher -/

/-- The chosen name (its Python `repr`) occurs inside the running banner:
centering only pads around the formatted text. -/
theorem pyRepr_infix_runningBanner (s : String) :
    (pyRepr s).data <:+: (runningBanner s).data := by
  have h1 : (pyRepr s).data <:+: (" Running test " ++ pyRepr s ++ " ").data :=
    ⟨(" Running test ").data, (" ").data, rfl⟩
  have h2 : (" Running test " ++ pyRepr s ++ " ").data <:+: (runningBanner s).data :=
    ⟨List.replicate ((80 - (" Running test " ++ pyRepr s ++ " ").length) / 2 +
        ((80 - (" Running test " ++ pyRepr s ++ " ").length) &&& 80 &&& 1)) '-',
     List.replicate ((80 - (" Running test " ++ pyRepr s ++ " ").length) -
        ((80 - (" Running test " ++ pyRepr s ++ " ").length) / 2 +
          ((80 - (" Running test " ++ pyRepr s ++ " ").length) &&& 80 &&& 1))) '-',
     rfl⟩
  exact h1.trans h2

/-- Claim C2, amended: on a line matching a registered name the loop stops
prompting (any further input is ignored) and invokes that callable, with a
centered banner containing the chosen name printed before execution
(followed by a blank line) — and nothing printed after the invocation. -/
theorem C2_banner_before (reg : Registry) (s : String) (f : TestFunc)
    (rest : List InEvent) (h : odLookup reg s = some f) :
    test_main_loop reg (InEvent.line s :: rest) =
      [OutEvent.printed (runningBanner s), OutEvent.printed (""),
       OutEvent.invoked s] ∧
    (pyRepr s).data <:+: (runningBanner s).data := by
  constructor
  · simp [test_main_loop, h]
  · exact pyRepr_infix_runningBanner s

/-- Counterexample to claim C2 as stated: running the registered test
`class` produces the full trace below — the banner is printed once,
before execution, and no banner (indeed nothing at all) is printed after
the invocation, refuting "before and after". -/
theorem C2_counterexample :
    test_main wrap1 reg1 [InEvent.line ("class")] =
      [OutEvent.printed ("Available tests:"),
       OutEvent.printed ("    class - Check if there is a Pulsar class"),
       OutEvent.printed (runningBanner ("class")),
       OutEvent.printed (""),
       OutEvent.invoked ("class")] ∧
    bannerAfterInvocation (test_main wrap1 reg1 [InEvent.line ("class")])
        ("class") = false := by
  exact ⟨rfl, by decide⟩

/-- Witness for the amended claim C2 at a concrete registry and input. -/
theorem C2_banner_before_witness :
    odLookup reg1 ("class") = some fClass ∧
    (test_main_loop reg1 [InEvent.line ("class")] =
        [OutEvent.printed (runningBanner ("class")), OutEvent.printed (""),
         OutEvent.invoked ("class")] ∧
      (pyRepr ("class")).data <:+: (runningBanner ("class")).data) :=
  ⟨rfl, C2_banner_before reg1 ("class") fClass [] rfl⟩

/-- Claim C3: an unregistered line followed by a registered one prints
exactly one retry message and then invokes the second test exactly once;
in general every unrecognized line prints one retry message and the loop
re-prompts on the remaining input. -/
theorem C3_retry_then_run (reg : Registry) (b v : String) (f : TestFunc)
    (hb : odLookup reg b = none) (hv : odLookup reg v = some f) :
    test_main_loop reg [InEvent.line b, InEvent.line v] =
      [OutEvent.printed invalidMsg, OutEvent.printed (runningBanner v),
       OutEvent.printed (""), OutEvent.invoked v] ∧
    (∀ s : String, ∀ rest : List InEvent, odLookup reg s = none →
      test_main_loop reg (InEvent.line s :: rest) =
        OutEvent.printed invalidMsg :: test_main_loop reg rest) := by
  constructor
  · simp [test_main_loop, hb, hv]
  · intro s rest h
    simp [test_main_loop, h]

/-- Witness for C3: `bogus` then `class` against the one-test registry. -/
theorem C3_retry_then_run_witness :
    odLookup reg1 ("bogus") = none ∧
    test_main_loop reg1 [InEvent.line ("bogus"), InEvent.line ("class")] =
      [OutEvent.printed invalidMsg, OutEvent.printed (runningBanner ("class")),
       OutEvent.printed (""), OutEvent.invoked ("class")] :=
  ⟨rfl, (C3_retry_then_run reg1 ("bogus") ("class") fClass rfl rfl).1⟩

/-- Input events that cannot dispatch: an interrupt, or a line whose name
is not registered. -/
def noRegisteredLine (reg : Registry) : InEvent → Bool
  | InEvent.line s => (odLookup reg s).isNone
  | InEvent.interrupt => true

/-- Claim C4: on exhausted input or an interrupt the loop prints a newline
and returns; and for any input stream containing no registered name
(exhausted or interrupted before a valid choice), `test_main` terminates
without invoking any registered callable. -/
theorem C4_graceful_exit (wrap : String → List String) (reg : Registry)
    (input : List InEvent) (h : input.all (noRegisteredLine reg) = true) :
    test_main_loop reg [] = [OutEvent.printed ("")] ∧
    (∀ rest, test_main_loop reg (InEvent.interrupt :: rest) = [OutEvent.printed ("")]) ∧
    (∀ t, OutEvent.invoked t ∉ test_main wrap reg input) := by
  refine ⟨rfl, fun rest => rfl, ?_⟩
  intro t
  have hloop : ∀ inp : List InEvent, inp.all (noRegisteredLine reg) = true →
      OutEvent.invoked t ∉ test_main_loop reg inp := by
    intro inp
    induction inp with
    | nil =>
      intro _
      simp [test_main_loop]
    | cons e rest ih =>
      intro hall
      simp only [List.all_cons, Bool.and_eq_true] at hall
      cases e with
      | interrupt => simp [test_main_loop]
      | line s =>
        have hn : odLookup reg s = none := by
          simpa [noRegisteredLine, Option.isNone_iff_eq_none] using hall.1
        simp only [test_main_loop, hn, List.mem_cons, not_or]
        exact ⟨by simp, ih hall.2⟩
  intro hmem
  simp [test_main] at hmem
  exact hloop input h hmem

/-- Witness for C4: a bogus line then an interrupt never invokes the one
registered test. -/
theorem C4_graceful_exit_witness :
    ([InEvent.line ("bogus"), InEvent.interrupt] : List InEvent).all
        (noRegisteredLine reg1) = true ∧
    OutEvent.invoked ("class") ∉
      test_main wrap1 reg1 [InEvent.line ("bogus"), InEvent.interrupt] :=
  ⟨by decide,
   (C4_graceful_exit wrap1 reg1 [InEvent.line ("bogus"), InEvent.interrupt]
      (by decide)).2.2 ("class")⟩

/-! ## Claims about the Pulsar class -/

/-- Claim C6: for non-zero period, `frequency = 1/period` and
`frequency_derivative = -period_derivative/period²`; setting
`frequency_derivative = fdot` stores `period_derivative = -fdot·period²`
(so re-reading `frequency_derivative` recovers `fdot`), and the
`frequency` setter inversely rewrites `period = 1/f` (so re-reading
`frequency` recovers `f`). -/
theorem C6_frequency_properties (p : Pulsar) (f fdot : ℚ)
    (hp : p.period ≠ 0) (_hf : f ≠ 0) :
    p.frequency = 1 / p.period ∧
    p.frequency_derivative = -p.period_derivative / p.period ^ 2 ∧
    (p.setFrequencyDerivative fdot).period_derivative = -fdot * p.period ^ 2 ∧
    (p.setFrequencyDerivative fdot).frequency_derivative = fdot ∧
    (p.setFrequency f).period = 1 / f ∧
    (p.setFrequency f).frequency = f := by
  refine ⟨rfl, rfl, ?_, ?_, rfl, ?_⟩
  · show -fdot / (1 / p.period) ^ 2 = -fdot * p.period ^ 2
    field_simp
  · show -(-fdot / (1 / p.period) ^ 2) / p.period ^ 2 = fdot
    field_simp
  · show 1 / (1 / f) = f
    field_simp

/-- Witness for C6 at the Crab pulsar (period 1/30 s), `f = 3`,
`fdot = 5`. -/
theorem C6_frequency_properties_witness :
    pCrab.period ≠ 0 ∧ (3 : ℚ) ≠ 0 ∧
    (pCrab.frequency = 1 / pCrab.period ∧
      pCrab.frequency_derivative = -pCrab.period_derivative / pCrab.period ^ 2 ∧
      (pCrab.setFrequencyDerivative 5).period_derivative = -5 * pCrab.period ^ 2 ∧
      (pCrab.setFrequencyDerivative 5).frequency_derivative = 5 ∧
      (pCrab.setFrequency 3).period = 1 / 3 ∧
      (pCrab.setFrequency 3).frequency = 3) :=
  ⟨by norm_num [pCrab, Pulsar.init], by norm_num,
   C6_frequency_properties pCrab 3 5 (by norm_num [pCrab, Pulsar.init]) (by norm_num)⟩

/-- Claim C10: the `frequency` setter rewrites only the stored `period`
(name, coords, period_derivative untouched); the `frequency_derivative`
setter rewrites only the stored `period_derivative` (name, coords, period
untouched). -/
theorem C10_setter_frame (p : Pulsar) (f fdot : ℚ) :
    (p.setFrequency f).name = p.name ∧
    (p.setFrequency f).coords = p.coords ∧
    (p.setFrequency f).period_derivative = p.period_derivative ∧
    (p.setFrequencyDerivative fdot).name = p.name ∧
    (p.setFrequencyDerivative fdot).coords = p.coords ∧
    (p.setFrequencyDerivative fdot).period = p.period :=
  ⟨rfl, rfl, rfl, rfl, rfl, rfl⟩

/-- Claim C7: on a loaded catalog, an identifier matching exactly one row
(on `NAME` or `PSRJ`) yields `ok` with a Pulsar whose fields are the
queried identifier (which equals the row's matching identifier column),
the row's coordinates, period `P0` and period derivative `P1`; an
identifier matching no row yields the error `Pulsar '<name>' not found`,
carrying the requested identifier, left for the caller. -/
theorem C7_catalog_lookup (cat loaded : Catalog) (name : String) :
    (∀ row : CatalogRow,
      cat.filter (catalogMatches name) = [row] →
      (Pulsar.from_catalog (some cat) loaded name).2.2 =
          Except.ok ⟨name, (row.RAJ, row.DECJ), row.P0, row.P1⟩ ∧
        (row.NAME = name ∨ row.PSRJ = name)) ∧
    (cat.filter (catalogMatches name) = [] →
      (Pulsar.from_catalog (some cat) loaded name).2.2 =
        Except.error ("Pulsar " ++ pyRepr name ++ " not found")) := by
  constructor
  · intro row hrow
    constructor
    · simp [Pulsar.from_catalog, Pulsar.from_catalog_search, hrow,
        Pulsar.from_catalog_row, Pulsar.init]
    · have hmem : row ∈ cat.filter (catalogMatches name) := by
        rw [hrow]
        exact List.mem_singleton_self row
      have := (List.mem_filter.mp hmem).2
      simpa [catalogMatches, Bool.or_eq_true, beq_iff_eq] using this
  · intro hnone
    simp [Pulsar.from_catalog, Pulsar.from_catalog_search, hnone]

/-- Witness for C7 on the one-row Crab catalog: a hit on the primary
identifier, and a miss carrying the requested identifier. -/
theorem C7_catalog_lookup_witness :
    cat1.filter (catalogMatches ("B0531+21")) = [rowCrab] ∧
    ((Pulsar.from_catalog (some cat1) [] ("B0531+21")).2.2 =
        Except.ok ⟨"B0531+21", (rowCrab.RAJ, rowCrab.DECJ), rowCrab.P0, rowCrab.P1⟩ ∧
      (rowCrab.NAME = "B0531+21" ∨ rowCrab.PSRJ = "B0531+21")) ∧
    cat1.filter (catalogMatches ("missing")) = [] ∧
    (Pulsar.from_catalog (some cat1) [] ("missing")).2.2 =
      Except.error ("Pulsar " ++ pyRepr ("missing") ++ " not found") :=
  ⟨rfl,
   (C7_catalog_lookup cat1 [] ("B0531+21")).1 rowCrab rfl,
   rfl,
   (C7_catalog_lookup cat1 [] ("missing")).2 rfl⟩

/-- Claim C8: a lookup with a cached catalog leaves the cache unchanged
and performs no load; a lookup with an empty cache loads once and caches;
across any sequence of lookups starting from a cached catalog no load
happens, and starting from an empty cache at most one load happens. -/
theorem C8_catalog_cache_once (cat loaded : Catalog) (name : String)
    (names : List String) :
    Pulsar.from_catalog (some cat) loaded name =
      (some cat, false, Pulsar.from_catalog_search cat name) ∧
    Pulsar.from_catalog none loaded name =
      (some loaded, true, Pulsar.from_catalog_search loaded name) ∧
    lookupSeq (some cat) loaded names = (some cat, 0) ∧
    (lookupSeq none loaded names).2 ≤ 1 := by
  have hcached : ∀ (c : Catalog) (ns : List String),
      lookupSeq (some c) loaded ns = (some c, 0) := by
    intro c ns
    induction ns with
    | nil => rfl
    | cons n ns ih => simp [lookupSeq, Pulsar.from_catalog, ih]
  refine ⟨rfl, rfl, hcached cat names, ?_⟩
  cases names with
  | nil => simp [lookupSeq]
  | cons n ns => simp [lookupSeq, Pulsar.from_catalog, hcached loaded ns]

end ClassesIntro
